import Mathlib

set_option linter.unusedVariables false

/-!
Verification of the RADIUS UDP exchange client (`radius/src/client.rs`).

The client performs one request/response UDP exchange: bind an ephemeral
local socket, associate it with the remote endpoint (optionally bounded by a
connection timeout), encode the request packet, send one datagram and wait
for one reply (optionally bounded by a socket timeout), then decode the
reply with the request packet's secret.

The embedding is a pure model: every I/O action's outcome (and the time the
corresponding future takes to resolve, in nanoseconds) is drawn from a
`World` record, and `Client.send_packet` additionally records the trace of
I/O actions it attempts, so that ordering and counting properties can be
stated.
-/

/-- Byte strings carried in datagrams (byte values as naturals). -/
abbrev Bytes := List Nat

/-- Model of `std::time::Duration`, in nanoseconds.  Rust's `Duration` is unsigned
(96-bit seconds/nanos pair), so negative durations are not representable;
the model uses `Nat` accordingly. -/
abbrev Duration := Nat

/-- Model of `std::net::IpAddr`: a v4 address as four octets, or a v6 address as its
list of eight 16-bit groups. -/
inductive IpAddr where
  | v4 (a b c d : Nat)
  | v6 (groups : List Nat)
deriving DecidableEq

/-- Model of `std::net::SocketAddr`: an IP address together with a port. -/
structure SocketAddr where
  ip : IpAddr
  port : Nat
deriving DecidableEq

/-- Model of `SocketAddr::is_ipv4`. -/
def SocketAddr.is_ipv4 (s : SocketAddr) : Bool :=
  match s.ip with
  | .v4 .. => true
  | .v6 _ => false

/-! ### The socket-address parser

Modelled from the spec: the source obtains its local address by parsing the
literal `"0.0.0.0:0"` or `"[::]:0"` through Rust std's `FromStr` for
`SocketAddr`, which is not part of this repository.  The grammar is modelled
after std's documented one: a dotted quad of decimal octets `0..=255`
without leading zeros, or a bracketed IPv6 address of 1-4-hex-digit groups
with at most one `::` compression (the IPv4-mapped tail form is omitted; no
input in this program uses it), each followed by `:` and a decimal port
`0..=65535`. -/

/-- Value of a decimal digit character. -/
def decDigit (c : Char) : Option Nat :=
  if c.isDigit then some (c.toNat - 48) else none

/-- Value of a hexadecimal digit character. -/
def hexDigit (c : Char) : Option Nat :=
  if c.isDigit then some (c.toNat - 48)
  else if 'a' ≤ c ∧ c ≤ 'f' then some (c.toNat - 87)
  else if 'A' ≤ c ∧ c ≤ 'F' then some (c.toNat - 55)
  else none

/-- Accumulate a decimal number over a digit list. -/
def parseDecAux : List Char → Nat → Option Nat
  | [], acc => some acc
  | c :: rest, acc =>
    match decDigit c with
    | some d => parseDecAux rest (acc * 10 + d)
    | none => none

/-- Accumulate a hexadecimal number over a digit list. -/
def parseHexAux : List Char → Nat → Option Nat
  | [], acc => some acc
  | c :: rest, acc =>
    match hexDigit c with
    | some d => parseHexAux rest (acc * 16 + d)
    | none => none

/-- Split a character list on a separator character. -/
def splitChar (sep : Char) : List Char → List (List Char)
  | [] => [[]]
  | c :: rest =>
    let r := splitChar sep rest
    if c = sep then [] :: r
    else
      match r with
      | h :: t => (c :: h) :: t
      | [] => [[c]]

/-- Split at the first `::`, when present. -/
def findDoubleColon : List Char → Option (List Char × List Char)
  | [] => none
  | [_] => none
  | a :: b :: rest =>
    if a = ':' ∧ b = ':' then some ([], rest)
    else
      match findDoubleColon (b :: rest) with
      | some (l, r) => some (a :: l, r)
      | none => none

/-- Split `addr]:port` at the first `]:`, when present. -/
def splitBracket : List Char → Option (List Char × List Char)
  | [] => none
  | [_] => none
  | a :: b :: rest =>
    if a = ']' ∧ b = ':' then some ([], rest)
    else
      match splitBracket (b :: rest) with
      | some (l, r) => some (a :: l, r)
      | none => none

/-- One IPv4 octet: decimal, no leading zeros, at most 255. -/
def parseOctet (l : List Char) : Option Nat :=
  if l.isEmpty then none
  else if 1 < l.length ∧ l.head? = some '0' then none
  else
    match parseDecAux l 0 with
    | some n => if n ≤ 255 then some n else none
    | none => none

/-- One IPv6 group: one to four hexadecimal digits. -/
def parseHexGroup (l : List Char) : Option Nat :=
  if l.isEmpty ∨ 4 < l.length then none
  else parseHexAux l 0

/-- A dotted quad. -/
def parseIpv4Chars (l : List Char) : Option IpAddr :=
  match (splitChar '.' l).mapM parseOctet with
  | some [a, b, c, d] => some (IpAddr.v4 a b c d)
  | _ => none

/-- A colon-separated group list; the empty list of characters denotes no
groups (one side of a `::`). -/
def parseGroupList (l : List Char) : Option (List Nat) :=
  match l with
  | [] => some []
  | _ => (splitChar ':' l).mapM parseHexGroup

/-- An IPv6 address, with at most one `::` filling in zero groups. -/
def parseIpv6Chars (l : List Char) : Option IpAddr :=
  match findDoubleColon l with
  | none =>
    match parseGroupList l with
    | some gs => if gs.length = 8 then some (IpAddr.v6 gs) else none
    | none => none
  | some (left, right) => do
    let gl ← parseGroupList left
    let gr ← parseGroupList right
    if gl.length + gr.length < 8 then
      some (IpAddr.v6 (gl ++ List.replicate (8 - gl.length - gr.length) 0 ++ gr))
    else none

/-- A port: decimal, at most 65535. -/
def parsePortChars (l : List Char) : Option Nat :=
  if l.isEmpty then none
  else
    match parseDecAux l 0 with
    | some n => if n ≤ 65535 then some n else none
    | none => none

/-- Model of `SocketAddr::from_str`: `v4:port` or `[v6]:port`. -/
def parseSocketAddr (s : String) : Option SocketAddr :=
  match s.data with
  | '[' :: rest =>
    match splitBracket rest with
    | some (addr, port) => do
      let ip ← parseIpv6Chars addr
      let p ← parsePortChars port
      some ⟨ip, p⟩
    | none => none
  | l =>
    match splitChar ':' l with
    | [addr, port] => do
      let ip ← parseIpv4Chars addr
      let p ← parsePortChars port
      some ⟨ip, p⟩
    | _ => none

/-- The literal the source parses for its local address: `"0.0.0.0:0"` when
the remote endpoint is IPv4, `"[::]:0"` otherwise (client.rs lines 81-85). -/
def localAddrStr (remote : SocketAddr) : String :=
  if remote.is_ipv4 then "0.0.0.0:0" else "[::]:0"

/-- The parse result for the local address; the source immediately unwraps
it (client.rs lines 86-87). -/
def local_addr (remote : SocketAddr) : Option SocketAddr :=
  parseSocketAddr (localAddrStr remote)

/-! ### The packet collaborator

Modelled from the spec: `crate::core::packet::Packet` is not under `src/`;
the spec treats it as an external collaborator that is opaque beyond
`encode()`, `decode(bytes, secret)` and `get_secret()`.  A packet is an
abstract handle and the three codec operations are drawn from the `World`
environment. -/
structure Packet where
  id : Nat
deriving DecidableEq

/-- Model of `ClientError` (client.rs lines 12-47).  The source renders the remote
endpoint and the underlying cause to strings via `Display`; the model
carries the endpoint itself together with the cause message. -/
inductive ClientError where
  | FailedUdpSocketBindingError (cause : String)
  | FailedEstablishingUdpConnectionError (remote : SocketAddr) (cause : String)
  | FailedRadiusPacketEncodingError (cause : String)
  | FailedSendingRadiusPacketError (remote : SocketAddr) (cause : String)
  | FailedReceivingResponseError (remote : SocketAddr) (cause : String)
  | FailedDecodingRadiusResponseError (cause : String)
  | ConnectionTimeoutError
  | SocketTimeoutError
deriving DecidableEq

/-- One I/O action attempted by the client, with the arguments it passed. -/
inductive Event where
  | bind (la : SocketAddr)
  | connect (remote : SocketAddr)
  | encode
  | send (data : Bytes)
  | recv
  | decode (bytes secret : Bytes)
deriving DecidableEq

/-- The environment of one exchange: the outcome of each underlying I/O
action, the time its future takes to resolve (nanoseconds), and the packet
codec. -/
structure World where
  /-- Outcome of `UdpSocket::bind(local_addr)`. -/
  bindResult : Except String Unit
  /-- Time `conn.connect(remote_addr)` takes to resolve. -/
  connectElapsed : Nat
  /-- Outcome of `conn.connect(remote_addr)`. -/
  connectResult : Except String Unit
  /-- Time `conn.send(request_data)` takes to resolve. -/
  sendElapsed : Nat
  /-- Outcome of `conn.send(request_data)`: the accepted byte count, or an
  error. -/
  sendResult : Except String Nat
  /-- Time `conn.recv(&mut buf)` takes to resolve, once started. -/
  recvElapsed : Nat
  /-- Outcome of `conn.recv(&mut buf)`: the incoming datagram, or an
  error. -/
  recvResult : Except String Bytes
  /-- Model of `Packet::encode` (modelled from the spec; `core/packet.rs` is not
  under `src/`). -/
  encode : Packet → Except String Bytes
  /-- Model of `Packet::get_secret` (modelled from the spec). -/
  get_secret : Packet → Bytes
  /-- Model of `Packet::decode` (modelled from the spec). -/
  decode : Bytes → Bytes → Except String Packet

/-- Model of `Client` (client.rs lines 50-53). -/
structure Client where
  connection_timeout : Option Duration
  socket_timeout : Option Duration
deriving DecidableEq

/-- Model of `Client::MAX_DATAGRAM_SIZE` (client.rs line 56). -/
def Client.MAX_DATAGRAM_SIZE : Nat := 65507

/-- Model of `Client::new` (client.rs lines 66-71): stores both optional durations
unchanged, with no validation or clamping. -/
def Client.new (connection_timeout socket_timeout : Option Duration) : Client :=
  { connection_timeout := connection_timeout, socket_timeout := socket_timeout }

/-- Model of `tokio::time::timeout(d, fut)`: resolves with the future's result if the
future resolves no later than the deadline (the inner future is polled
before the deadline check, so it wins a tie), and with `none` (the elapsed
error) otherwise. -/
def tokioTimeout {α : Type} (d : Duration) (elapsed : Nat) (res : α) : Option α :=
  if elapsed ≤ d then some res else none

/-- Model of `Client::connect` (client.rs lines 132-140). -/
def Client.connect (remote : SocketAddr) (w : World) : Except ClientError Unit :=
  match w.connectResult with
  | .ok _ => .ok ()
  | .error e => .error (.FailedEstablishingUdpConnectionError remote e)

/-- Model of `Client::request` (client.rs lines 142-166): send the datagram (the
returned byte count is discarded by `Ok(_) => {}`), then receive one
datagram into a buffer of `MAX_DATAGRAM_SIZE` bytes and return the filled
prefix. -/
def Client.request (remote : SocketAddr) (request_data : Bytes) (w : World) :
    Except ClientError Bytes :=
  match w.sendResult with
  | .error e => .error (.FailedSendingRadiusPacketError remote e)
  | .ok _ =>
    match w.recvResult with
    | .ok datagram => .ok (datagram.take Client.MAX_DATAGRAM_SIZE)
    | .error e => .error (.FailedReceivingResponseError remote e)

/-- Time at which the `Client::request` future resolves: at the send's
resolution when the send errors, after send plus receive otherwise. -/
def requestElapsed (w : World) : Nat :=
  match w.sendResult with
  | .error _ => w.sendElapsed
  | .ok _ => w.sendElapsed + w.recvElapsed

/-- The I/O actions `Client::request` has issued by time `cutoff`: the send
is issued immediately; the receive is issued when the send resolves
successfully, provided that happens by the cutoff (afterwards the future
has been abandoned by the surrounding timeout). -/
def requestEvents (request_data : Bytes) (w : World) (cutoff : Nat) : List Event :=
  Event.send request_data ::
    (match w.sendResult with
     | .ok _ => if w.sendElapsed ≤ cutoff then [Event.recv] else []
     | .error _ => [])

/-- The connect step of `send_packet` (client.rs lines 94-102): the connect
future raced against `connection_timeout` when it is set, awaited plainly
otherwise. -/
def connectStep (c : Client) (remote : SocketAddr) (w : World) :
    Except ClientError Unit :=
  match c.connection_timeout with
  | some d =>
    match tokioTimeout d w.connectElapsed (Client.connect remote w) with
    | some r => r
    | none => .error .ConnectionTimeoutError
  | none => Client.connect remote w

/-- The send-and-receive step of `send_packet` (client.rs lines 109-122):
the `Client::request` future raced against `socket_timeout` when it is set,
awaited plainly otherwise; paired with the I/O actions issued. -/
def requestStep (c : Client) (remote : SocketAddr) (request_data : Bytes)
    (w : World) : Except ClientError Bytes × List Event :=
  match c.socket_timeout with
  | some d =>
    match tokioTimeout d (requestElapsed w) (Client.request remote request_data w) with
    | some r => (r, requestEvents request_data w d)
    | none => (.error .SocketTimeoutError, requestEvents request_data w d)
  | none =>
    (Client.request remote request_data w,
     requestEvents request_data w (requestElapsed w))

/-- Model of `Client::send_packet` (client.rs lines 76-130), instrumented with the
trace of I/O actions attempted: parse the family-matching wildcard local
address and bind to it, run the connect step, encode the request, run the
send-and-receive step, and decode the reply bytes with the request packet's
secret. -/
def Client.send_packet (c : Client) (remote : SocketAddr)
    (request_packet : Packet) (w : World) :
    Except ClientError Packet × List Event :=
  let la := (local_addr remote).getD ⟨IpAddr.v4 0 0 0 0, 0⟩
  match w.bindResult with
  | .error e => (.error (.FailedUdpSocketBindingError e), [.bind la])
  | .ok _ =>
    match connectStep c remote w with
    | .error e => (.error e, [.bind la, .connect remote])
    | .ok _ =>
      match w.encode request_packet with
      | .error e =>
        (.error (.FailedRadiusPacketEncodingError e),
         [.bind la, .connect remote, .encode])
      | .ok request_data =>
        match requestStep c remote request_data w with
        | (.error e, evs) =>
          (.error e, [.bind la, .connect remote, .encode] ++ evs)
        | (.ok response, evs) =>
          match w.decode response (w.get_secret request_packet) with
          | .ok response_packet =>
            (.ok response_packet,
             [.bind la, .connect remote, .encode] ++ evs
               ++ [.decode response (w.get_secret request_packet)])
          | .error e =>
            (.error (.FailedDecodingRadiusResponseError e),
             [.bind la, .connect remote, .encode] ++ evs
               ++ [.decode response (w.get_secret request_packet)])

/-! ### Helper predicates and concrete worlds used in witnesses -/

/-- Is this event a datagram transmission? -/
def Event.isSendEv : Event → Bool
  | .send _ => true
  | _ => false

/-- Is this event a datagram reception? -/
def Event.isRecvEv : Event → Bool
  | .recv => true
  | _ => false

/-- The trace lengths at which each error kind can terminate the exchange:
the length is the index (1-based) of the step whose failure it reports.
`SocketTimeoutError` can fire while the send is still in flight (trace
length 4) or while the receive is (trace length 5). -/
def errStepLengths : ClientError → List Nat
  | .FailedUdpSocketBindingError _ => [1]
  | .FailedEstablishingUdpConnectionError _ _ => [2]
  | .ConnectionTimeoutError => [2]
  | .FailedRadiusPacketEncodingError _ => [3]
  | .FailedSendingRadiusPacketError _ _ => [4]
  | .SocketTimeoutError => [4, 5]
  | .FailedReceivingResponseError _ _ => [5]
  | .FailedDecodingRadiusResponseError _ => [6]

/-- A concrete IPv4 remote endpoint. -/
def addr4 : SocketAddr := ⟨IpAddr.v4 127 0 0 1, 1812⟩

/-- A concrete request packet handle. -/
def pkt0 : Packet := ⟨0⟩

/-- A world in which every step succeeds instantly. -/
def baseWorld : World :=
  { bindResult := .ok ()
  , connectElapsed := 0
  , connectResult := .ok ()
  , sendElapsed := 0
  , sendResult := .ok 4
  , recvElapsed := 0
  , recvResult := .ok [1, 2, 3]
  , encode := fun _ => .ok [0, 0, 0, 20]
  , get_secret := fun _ => [9, 9]
  , decode := fun b _ => .ok ⟨b.length⟩ }

/-- A world in which the request packet fails to encode. -/
def encodeFailWorld : World :=
  { baseWorld with encode := fun _ => .error "bad attribute" }

/-- A world in which association takes 5 time units. -/
def slowConnectWorld : World :=
  { baseWorld with connectElapsed := 5 }

/-- A world in which the reply takes 7 time units to arrive. -/
def slowRecvWorld : World :=
  { baseWorld with recvElapsed := 7 }

/-- A world in which the send fails. -/
def sendFailWorld : World :=
  { baseWorld with sendResult := .error "socket closed" }

/-- A world in which the send is partial: 1 byte accepted of a longer
request. -/
def partialSendWorld : World :=
  { baseWorld with sendResult := .ok 1 }

/-- A world in which the receive fails. -/
def recvFailWorld : World :=
  { baseWorld with recvResult := .error "connection reset" }

/-! ### The claims -/

/-- C10: for every remote endpoint the local-address literal is one of the
two fixed strings `"0.0.0.0:0"` and `"[::]:0"`, both parse successfully,
and hence the parse the source unwraps is never `none`: the unwrap's panic
branch is unreachable. -/
theorem local_addr_parse_never_fails (remote : SocketAddr) :
    (localAddrStr remote = "0.0.0.0:0" ∨ localAddrStr remote = "[::]:0") ∧
    parseSocketAddr "0.0.0.0:0" = some ⟨IpAddr.v4 0 0 0 0, 0⟩ ∧
    parseSocketAddr "[::]:0" = some ⟨IpAddr.v6 [0, 0, 0, 0, 0, 0, 0, 0], 0⟩ ∧
    (local_addr remote).isSome = true := by
  unfold local_addr localAddrStr
  cases h : remote.is_ipv4 <;> simp [h] <;> decide

/-- C6: the local bind address is chosen by the remote endpoint's address
family — the IPv4 wildcard `0.0.0.0:0` when the remote address is IPv4 and
the IPv6 wildcard `[::]:0` otherwise — and a bind failure yields the
bind-error result. -/
theorem send_packet_bind_address_family (c : Client) (remote : SocketAddr)
    (rp : Packet) (w : World) (e : String) (hb : w.bindResult = .error e) :
    local_addr remote =
      some (if remote.is_ipv4 then (⟨IpAddr.v4 0 0 0 0, 0⟩ : SocketAddr)
            else ⟨IpAddr.v6 [0, 0, 0, 0, 0, 0, 0, 0], 0⟩) ∧
    (c.send_packet remote rp w).1 = .error (.FailedUdpSocketBindingError e) := by
  constructor
  · unfold local_addr localAddrStr
    cases h : remote.is_ipv4 <;> simp [h] <;> decide
  · simp [Client.send_packet, hb]

/-- Witness for C6 at a concrete bind failure. -/
theorem send_packet_bind_address_family_witness :
    ((Client.new none none).send_packet addr4 pkt0
        { baseWorld with bindResult := .error "no ports" }).1 =
      .error (.FailedUdpSocketBindingError "no ports") :=
  (send_packet_bind_address_family (Client.new none none) addr4 pkt0
    { baseWorld with bindResult := .error "no ports" } "no ports" rfl).2

/-! ### Classification lemmas for the individual steps -/

/-- Step lemma: `Client.connect` fails exactly when the underlying connect fails, with a
connection-establishment error carrying that cause. -/
theorem connect_error_kind (remote : SocketAddr) (w : World) (e : ClientError)
    (h : Client.connect remote w = .error e) :
    ∃ s, w.connectResult = .error s ∧
      e = .FailedEstablishingUdpConnectionError remote s := by
  unfold Client.connect at h
  rcases hc : w.connectResult with s | u <;> rw [hc] at h
  · simp at h
    exact ⟨s, rfl, h.symm⟩
  · simp at h

/-- The connect step of `send_packet` fails only with the connection-timeout
error or a connection-establishment error. -/
theorem connectStep_error_kind (c : Client) (remote : SocketAddr) (w : World)
    (e : ClientError) (h : connectStep c remote w = .error e) :
    e = .ConnectionTimeoutError ∨
      ∃ s, w.connectResult = .error s ∧
        e = .FailedEstablishingUdpConnectionError remote s := by
  unfold connectStep at h
  split at h
  · rename_i d hct
    unfold tokioTimeout at h
    split at h
    · rename_i r hr
      by_cases hle : w.connectElapsed ≤ d
      · rw [if_pos hle] at hr
        injection hr with hr
        exact .inr (connect_error_kind remote w e (hr ▸ h))
      · rw [if_neg hle] at hr
        exact absurd hr (by simp)
    · injection h with h
      exact .inl h.symm
  · exact .inr (connect_error_kind remote w e h)

/-- Step lemma: `Client.request` fails exactly with a send error (when the underlying
send fails) or a receive error (when the send succeeded and the underlying
receive fails). -/
theorem request_error_kind (remote : SocketAddr) (data : Bytes) (w : World)
    (e : ClientError) (h : Client.request remote data w = .error e) :
    (∃ s, w.sendResult = .error s ∧
       e = .FailedSendingRadiusPacketError remote s) ∨
    (∃ s n, w.sendResult = .ok n ∧ w.recvResult = .error s ∧
       e = .FailedReceivingResponseError remote s) := by
  unfold Client.request at h
  split at h
  · rename_i s hs
    injection h with h
    exact .inl ⟨s, hs, h.symm⟩
  · rename_i n hn
    split at h
    · simp at h
    · rename_i s hs
      injection h with h
      exact .inr ⟨s, n, hn, hs, h.symm⟩

/-- Exhaustive description of the send-and-receive step: its result is a
reply, a send error, a receive error, or the socket timeout, and its trace
is the send alone or the send followed by the receive, as dictated by the
outcome and the timing. -/
theorem requestStep_cases (c : Client) (remote : SocketAddr) (data : Bytes)
    (w : World) :
    (∃ resp, requestStep c remote data w =
       (.ok resp, [Event.send data, Event.recv])) ∨
    (∃ s, requestStep c remote data w =
       (.error (.FailedSendingRadiusPacketError remote s), [Event.send data])) ∨
    (∃ s, requestStep c remote data w =
       (.error (.FailedReceivingResponseError remote s),
        [Event.send data, Event.recv])) ∨
    (requestStep c remote data w = (.error .SocketTimeoutError, [Event.send data]) ∨
     requestStep c remote data w =
       (.error .SocketTimeoutError, [Event.send data, Event.recv])) := by
  rcases hst : c.socket_timeout with _ | d
  · rcases hs : w.sendResult with s | n
    · exact .inr (.inl ⟨s, by
        simp [requestStep, hst, requestEvents, requestElapsed, Client.request, hs]⟩)
    · rcases hr : w.recvResult with s | datagram
      · exact .inr (.inr (.inl ⟨s, by
          simp [requestStep, hst, requestEvents, requestElapsed, Client.request,
            hs, hr, Nat.le_add_right]⟩))
      · exact .inl ⟨datagram.take Client.MAX_DATAGRAM_SIZE, by
          simp [requestStep, hst, requestEvents, requestElapsed, Client.request,
            hs, hr, Nat.le_add_right]⟩
  · rcases hs : w.sendResult with s | n
    · by_cases hle : w.sendElapsed ≤ d
      · exact .inr (.inl ⟨s, by
          simp [requestStep, hst, tokioTimeout, requestEvents, requestElapsed,
            Client.request, hs, hle]⟩)
      · exact .inr (.inr (.inr (.inl (by
          simp [requestStep, hst, tokioTimeout, requestEvents, requestElapsed,
            Client.request, hs, hle]))))
    · by_cases hle : w.sendElapsed + w.recvElapsed ≤ d
      · have hle' : w.sendElapsed ≤ d := le_trans (Nat.le_add_right _ _) hle
        rcases hr : w.recvResult with s | datagram
        · exact .inr (.inr (.inl ⟨s, by
            simp [requestStep, hst, tokioTimeout, requestEvents, requestElapsed,
              Client.request, hs, hr, hle, hle']⟩))
        · exact .inl ⟨datagram.take Client.MAX_DATAGRAM_SIZE, by
            simp [requestStep, hst, tokioTimeout, requestEvents, requestElapsed,
              Client.request, hs, hr, hle, hle']⟩
      · by_cases hle' : w.sendElapsed ≤ d
        · exact .inr (.inr (.inr (.inr (by
            simp [requestStep, hst, tokioTimeout, requestEvents, requestElapsed,
              Client.request, hs, hle, hle']))))
        · exact .inr (.inr (.inr (.inl (by
            simp [requestStep, hst, tokioTimeout, requestEvents, requestElapsed,
              Client.request, hs, hle, hle']))))

/-- Source lemma: `ConnectionTimeoutError` arises only from the connect step's timeout
race: a configured connection timeout that the connect future outlived. -/
theorem send_packet_conn_timeout_source (c : Client) (remote : SocketAddr)
    (rp : Packet) (w : World)
    (h : (c.send_packet remote rp w).1 = .error .ConnectionTimeoutError) :
    ∃ d, c.connection_timeout = some d ∧ d < w.connectElapsed := by
  unfold Client.send_packet at h
  dsimp only at h
  split at h
  · simp at h
  · split at h
    · rename_i e hcs
      simp only [] at h
      injection h with h
      subst h
      unfold connectStep at hcs
      split at hcs
      · rename_i d hct
        unfold tokioTimeout at hcs
        split at hcs
        · rename_i r hr
          by_cases hle : w.connectElapsed ≤ d
          · rw [if_pos hle] at hr
            injection hr with hr
            obtain ⟨s, _, hshape⟩ := connect_error_kind remote w _ (hr ▸ hcs)
            simp at hshape
          · rw [if_neg hle] at hr
            exact absurd hr (by simp)
        · rename_i hr
          by_cases hle : w.connectElapsed ≤ d
          · rw [if_pos hle] at hr
            exact absurd hr (by simp)
          · exact ⟨d, hct, Nat.lt_of_not_le hle⟩
      · obtain ⟨s, _, hshape⟩ := connect_error_kind remote w _ hcs
        simp at hshape
    · split at h
      · simp at h
      · rename_i data henc
        rcases requestStep_cases c remote data w with
          ⟨resp, hrs⟩ | ⟨s, hrs⟩ | ⟨s, hrs⟩ | hrs | hrs <;> rw [hrs] at h
        · rcases hdec : w.decode resp (w.get_secret rp) with s | respPkt <;>
            simp [hdec] at h
        all_goals simp at h

/-- C2: with `connectionTimeout = Some d`, an association outliving `d`
yields exactly `ConnectionTimeoutError`, and a non-timeout association
failure within `d` yields the connection-establishment error with its
cause; with `connectionTimeout = None`, the result can never be
`ConnectionTimeoutError`. -/
theorem send_packet_connection_timeout_spec (c : Client) (remote : SocketAddr)
    (rp : Packet) (w : World) (hb : w.bindResult = .ok ()) :
    (∀ d, c.connection_timeout = some d → d < w.connectElapsed →
       (c.send_packet remote rp w).1 = .error .ConnectionTimeoutError) ∧
    (∀ d e, c.connection_timeout = some d → w.connectElapsed ≤ d →
       w.connectResult = .error e →
       (c.send_packet remote rp w).1 =
         .error (.FailedEstablishingUdpConnectionError remote e)) ∧
    (c.connection_timeout = none →
       (c.send_packet remote rp w).1 ≠ .error .ConnectionTimeoutError) := by
  refine ⟨?_, ?_, ?_⟩
  · intro d hct hlt
    have hnle : ¬w.connectElapsed ≤ d := Nat.not_le.mpr hlt
    simp [Client.send_packet, hb, connectStep, tokioTimeout, hct, hnle]
  · intro d e hct hle hcr
    simp [Client.send_packet, hb, connectStep, tokioTimeout, hct, hle,
      Client.connect, hcr]
  · intro hct hcontra
    obtain ⟨d, hd, _⟩ := send_packet_conn_timeout_source c remote rp w hcontra
    rw [hct] at hd
    exact Option.noConfusion hd

/-- Witness for C2: a 1-unit connection timeout against a 5-unit
association yields `ConnectionTimeoutError`. -/
theorem send_packet_connection_timeout_spec_witness :
    ((Client.new (some 1) none).send_packet addr4 pkt0 slowConnectWorld).1 =
      .error .ConnectionTimeoutError :=
  (send_packet_connection_timeout_spec (Client.new (some 1) none) addr4 pkt0
      slowConnectWorld rfl).1 1 rfl (by decide)

/-- C3: with `socketTimeout = Some d`, a send-then-receive sequence
outliving `d` yields exactly `SocketTimeoutError`; a send failure
resolving within `d` yields the send error with the remote endpoint and
its cause, not a timeout; and a non-timeout receive failure within `d`
yields the receive error with the remote endpoint and its cause. -/
theorem send_packet_socket_timeout_spec (c : Client) (remote : SocketAddr)
    (rp : Packet) (w : World) (data : Bytes)
    (hb : w.bindResult = .ok ()) (hcs : connectStep c remote w = .ok ())
    (henc : w.encode rp = .ok data) :
    (∀ d, c.socket_timeout = some d → d < requestElapsed w →
       (c.send_packet remote rp w).1 = .error .SocketTimeoutError) ∧
    (∀ d e, c.socket_timeout = some d → w.sendResult = .error e →
       w.sendElapsed ≤ d →
       (c.send_packet remote rp w).1 =
         .error (.FailedSendingRadiusPacketError remote e)) ∧
    (∀ d e n, c.socket_timeout = some d → w.sendResult = .ok n →
       w.recvResult = .error e → requestElapsed w ≤ d →
       (c.send_packet remote rp w).1 =
         .error (.FailedReceivingResponseError remote e)) := by
  refine ⟨?_, ?_, ?_⟩
  · intro d hst hlt
    have hnle : ¬requestElapsed w ≤ d := Nat.not_le.mpr hlt
    simp [Client.send_packet, hb, hcs, henc, requestStep, tokioTimeout, hst, hnle]
  · intro d e hst hs hle
    have hre : requestElapsed w ≤ d := by
      unfold requestElapsed
      rw [hs]
      exact hle
    simp [Client.send_packet, hb, hcs, henc, requestStep, tokioTimeout, hst,
      hre, Client.request, hs]
  · intro d e n hst hs hr hle
    simp [Client.send_packet, hb, hcs, henc, requestStep, tokioTimeout, hst,
      hle, Client.request, hs, hr]

/-- Witness for C3: a 2-unit socket timeout against a 7-unit receive yields
`SocketTimeoutError`. -/
theorem send_packet_socket_timeout_spec_witness :
    ((Client.new none (some 2)).send_packet addr4 pkt0 slowRecvWorld).1 =
      .error .SocketTimeoutError :=
  (send_packet_socket_timeout_spec (Client.new none (some 2)) addr4 pkt0
      slowRecvWorld [0, 0, 0, 20] rfl rfl rfl).1 2 rfl (by decide)

/-- C4: when the request packet fails to encode, `send_packet` returns the
encode error with its cause, the trace stops at the encode step, and no
datagram is transmitted. -/
theorem send_packet_encode_failure_no_send (c : Client) (remote : SocketAddr)
    (rp : Packet) (w : World) (e : String)
    (hb : w.bindResult = .ok ()) (hcs : connectStep c remote w = .ok ())
    (henc : w.encode rp = .error e) :
    c.send_packet remote rp w =
      (.error (.FailedRadiusPacketEncodingError e),
       [.bind ((local_addr remote).getD ⟨IpAddr.v4 0 0 0 0, 0⟩),
        .connect remote, .encode]) ∧
    (c.send_packet remote rp w).2.countP (fun ev => ev.isSendEv) = 0 := by
  have h1 : c.send_packet remote rp w =
      (.error (.FailedRadiusPacketEncodingError e),
       [.bind ((local_addr remote).getD ⟨IpAddr.v4 0 0 0 0, 0⟩),
        .connect remote, .encode]) := by
    simp [Client.send_packet, hb, hcs, henc]
  refine ⟨h1, ?_⟩
  rw [h1]
  rfl

/-- Witness for C4: a failing encode terminates the exchange with the
encode error and a trace containing no send. -/
theorem send_packet_encode_failure_no_send_witness :
    (Client.new none none).send_packet addr4 pkt0 encodeFailWorld =
      (.error (.FailedRadiusPacketEncodingError "bad attribute"),
       [.bind ((local_addr addr4).getD ⟨IpAddr.v4 0 0 0 0, 0⟩),
        .connect addr4, .encode]) ∧
    ((Client.new none none).send_packet addr4 pkt0 encodeFailWorld).2.countP
        (fun ev => ev.isSendEv) = 0 :=
  send_packet_encode_failure_no_send (Client.new none none) addr4 pkt0
    encodeFailWorld "bad attribute" rfl rfl rfl

/-- C5: when a reply is received, decode is invoked on exactly the received
bytes paired with the secret obtained from the request packet, a successful
decode's packet is returned as the success value, and a failing decode
yields the decode error with its cause. -/
theorem send_packet_decode_args_and_result (c : Client) (remote : SocketAddr)
    (rp : Packet) (w : World) (data resp : Bytes)
    (hb : w.bindResult = .ok ()) (hcs : connectStep c remote w = .ok ())
    (henc : w.encode rp = .ok data)
    (hreq : (requestStep c remote data w).1 = .ok resp) :
    (Event.decode resp (w.get_secret rp) ∈ (c.send_packet remote rp w).2) ∧
    (∀ b s, Event.decode b s ∈ (c.send_packet remote rp w).2 →
       b = resp ∧ s = w.get_secret rp) ∧
    (∀ out, w.decode resp (w.get_secret rp) = .ok out →
       (c.send_packet remote rp w).1 = .ok out) ∧
    (∀ e, w.decode resp (w.get_secret rp) = .error e →
       (c.send_packet remote rp w).1 =
         .error (.FailedDecodingRadiusResponseError e)) := by
  obtain ⟨resp', hrs⟩ | ⟨s, hrs⟩ | ⟨s, hrs⟩ | hrs | hrs :=
      requestStep_cases c remote data w <;>
    rw [hrs] at hreq <;> simp at hreq
  subst hreq
  refine ⟨?_, ?_, ?_, ?_⟩
  · rcases hdec : w.decode resp' (w.get_secret rp) with s | pk <;>
      simp [Client.send_packet, hb, hcs, henc, hrs, hdec]
  · intro b s hmem
    rcases hdec : w.decode resp' (w.get_secret rp) with s' | pk <;>
      simp [Client.send_packet, hb, hcs, henc, hrs, hdec] at hmem <;>
      exact hmem
  · intro out hdec
    simp [Client.send_packet, hb, hcs, henc, hrs, hdec]
  · intro e hdec
    simp [Client.send_packet, hb, hcs, henc, hrs, hdec]

/-- Witness for C5: in the all-success world the decoded reply is returned. -/
theorem send_packet_decode_args_and_result_witness :
    ((Client.new none none).send_packet addr4 pkt0 baseWorld).1 =
      .ok ⟨3⟩ :=
  (send_packet_decode_args_and_result (Client.new none none) addr4 pkt0
      baseWorld [0, 0, 0, 20] [1, 2, 3] rfl rfl rfl rfl).2.2.1 ⟨3⟩ rfl

/-- The canonical full trace of one exchange, in the source's order: bind,
associate, encode, send, receive, decode. -/
def canonicalTrace (remote : SocketAddr) (rp : Packet) (w : World)
    (data resp : Bytes) : List Event :=
  [Event.bind ((local_addr remote).getD ⟨IpAddr.v4 0 0 0 0, 0⟩),
   Event.connect remote, Event.encode, Event.send data, Event.recv,
   Event.decode resp (w.get_secret rp)]

/-- C1: every exchange's trace is a prefix of the canonical step sequence
bind, associate, encode, send, receive, decode — no step skipped, reordered
or revisited; a successful exchange runs all six steps, and a failed
exchange stops at the step whose error it reports (`errStepLengths`), with
no later step executed. -/
theorem send_packet_step_order (c : Client) (remote : SocketAddr) (rp : Packet)
    (w : World) :
    ∃ k data resp, k ≤ 6 ∧
      (c.send_packet remote rp w).2 =
        (canonicalTrace remote rp w data resp).take k ∧
      ((c.send_packet remote rp w).1.isOk = true → k = 6) ∧
      (∀ e, (c.send_packet remote rp w).1 = .error e → k ∈ errStepLengths e) := by
  rcases hb : w.bindResult with eb | u
  · refine ⟨1, [], [], by norm_num, ?_, ?_, ?_⟩ <;>
      simp [Client.send_packet, hb, canonicalTrace, errStepLengths, Except.isOk, Except.toBool]
  · rcases hcs : connectStep c remote w with ec | u2
    · refine ⟨2, [], [], by norm_num, ?_, ?_, ?_⟩
      · simp [Client.send_packet, hb, hcs, canonicalTrace]
      · simp [Client.send_packet, hb, hcs, Except.isOk, Except.toBool]
      · intro e he
        simp [Client.send_packet, hb, hcs] at he
        subst he
        rcases connectStep_error_kind c remote w ec hcs with hk | ⟨s, _, hk⟩ <;>
          subst hk <;> simp [errStepLengths]
    · rcases henc : w.encode rp with ee | data
      · refine ⟨3, [], [], by norm_num, ?_, ?_, ?_⟩ <;>
          simp [Client.send_packet, hb, hcs, henc, canonicalTrace, errStepLengths, Except.isOk, Except.toBool]
      · rcases requestStep_cases c remote data w with
          ⟨resp, hrs⟩ | ⟨s, hrs⟩ | ⟨s, hrs⟩ | hrs | hrs
        · rcases hdec : w.decode resp (w.get_secret rp) with ed | pk
          · refine ⟨6, data, resp, le_refl 6, ?_, ?_, ?_⟩ <;>
              simp [Client.send_packet, hb, hcs, henc, hrs, hdec,
                canonicalTrace, errStepLengths, Except.isOk, Except.toBool]
          · refine ⟨6, data, resp, le_refl 6, ?_, ?_, ?_⟩ <;>
              simp [Client.send_packet, hb, hcs, henc, hrs, hdec,
                canonicalTrace, errStepLengths, Except.isOk, Except.toBool]
        · refine ⟨4, data, [], by norm_num, ?_, ?_, ?_⟩ <;>
            simp [Client.send_packet, hb, hcs, henc, hrs, canonicalTrace,
              errStepLengths, Except.isOk, Except.toBool]
        · refine ⟨5, data, [], by norm_num, ?_, ?_, ?_⟩ <;>
            simp [Client.send_packet, hb, hcs, henc, hrs, canonicalTrace,
              errStepLengths, Except.isOk, Except.toBool]
        · refine ⟨4, data, [], by norm_num, ?_, ?_, ?_⟩ <;>
            simp [Client.send_packet, hb, hcs, henc, hrs, canonicalTrace,
              errStepLengths, Except.isOk, Except.toBool]
        · refine ⟨5, data, [], by norm_num, ?_, ?_, ?_⟩ <;>
            simp [Client.send_packet, hb, hcs, henc, hrs, canonicalTrace,
              errStepLengths, Except.isOk, Except.toBool]

/-- Witness for C1 (its implications) at the all-success world: the trace
is the full six-step canonical sequence. -/
theorem send_packet_step_order_witness :
    ∃ k data resp, k ≤ 6 ∧
      ((Client.new none none).send_packet addr4 pkt0 baseWorld).2 =
        (canonicalTrace addr4 pkt0 baseWorld data resp).take k ∧
      (((Client.new none none).send_packet addr4 pkt0 baseWorld).1.isOk = true →
        k = 6) ∧
      (∀ e, ((Client.new none none).send_packet addr4 pkt0 baseWorld).1 =
          .error e → k ∈ errStepLengths e) :=
  send_packet_step_order (Client.new none none) addr4 pkt0 baseWorld

/-- A successful send-and-receive step returns exactly the result of
`Client.request`. -/
theorem requestStep_ok_request (c : Client) (remote : SocketAddr)
    (data : Bytes) (w : World) (resp : Bytes)
    (h : (requestStep c remote data w).1 = .ok resp) :
    Client.request remote data w = .ok resp := by
  unfold requestStep at h
  split at h
  · rename_i d hst
    unfold tokioTimeout at h
    by_cases hle : requestElapsed w ≤ d
    · simpa [hle] using h
    · simp [hle] at h
  · simpa using h

/-- A successful `Client.request` hands over at most `MAX_DATAGRAM_SIZE`
bytes: the reply is read into a buffer of that size. -/
theorem request_ok_length (remote : SocketAddr) (data : Bytes) (w : World)
    (resp : Bytes) (h : Client.request remote data w = .ok resp) :
    resp.length ≤ Client.MAX_DATAGRAM_SIZE := by
  unfold Client.request at h
  split at h
  · simp at h
  · split at h
    · rename_i datagram hd
      injection h with h
      subst h
      rw [List.length_take]
      exact Nat.min_le_left _ _
    · simp at h

/-- Counterexample to C7 as stated: a call whose encode step fails
transmits no datagram at all, so it is not the case that every call sends
exactly one datagram. -/
theorem send_packet_not_always_one_datagram :
    ¬ (((Client.new none none).send_packet addr4 pkt0 encodeFailWorld).2.countP
        (fun ev => ev.isSendEv) = 1) := by
  decide

/-- C7 amended: every call sends at most one datagram and receives at most
one reply (exactly one of each when the exchange succeeds), and any reply
handed to the decoder is capped at the 65507-byte buffer size. -/
theorem send_packet_datagram_counts (c : Client) (remote : SocketAddr)
    (rp : Packet) (w : World) :
    Client.MAX_DATAGRAM_SIZE = 65507 ∧
    (c.send_packet remote rp w).2.countP (fun ev => ev.isSendEv) ≤ 1 ∧
    (c.send_packet remote rp w).2.countP (fun ev => ev.isRecvEv) ≤ 1 ∧
    ((c.send_packet remote rp w).1.isOk = true →
      (c.send_packet remote rp w).2.countP (fun ev => ev.isSendEv) = 1 ∧
      (c.send_packet remote rp w).2.countP (fun ev => ev.isRecvEv) = 1) ∧
    (∀ b s, Event.decode b s ∈ (c.send_packet remote rp w).2 →
      b.length ≤ Client.MAX_DATAGRAM_SIZE) := by
  refine ⟨rfl, ?_⟩
  rcases hb : w.bindResult with eb | u
  · refine ⟨?_, ?_, ?_, ?_⟩ <;>
      simp [Client.send_packet, hb, Event.isSendEv, Event.isRecvEv,
        Except.isOk, Except.toBool]
  · rcases hcs : connectStep c remote w with ec | u2
    · refine ⟨?_, ?_, ?_, ?_⟩ <;>
        simp [Client.send_packet, hb, hcs, Event.isSendEv, Event.isRecvEv,
          Except.isOk, Except.toBool]
    · rcases henc : w.encode rp with ee | data
      · refine ⟨?_, ?_, ?_, ?_⟩ <;>
          simp [Client.send_packet, hb, hcs, henc, Event.isSendEv,
            Event.isRecvEv, Except.isOk, Except.toBool]
      · rcases requestStep_cases c remote data w with
          ⟨resp, hrs⟩ | ⟨s, hrs⟩ | ⟨s, hrs⟩ | hrs | hrs
        · have hlen : resp.length ≤ Client.MAX_DATAGRAM_SIZE :=
            request_ok_length remote data w resp
              (requestStep_ok_request c remote data w resp (by rw [hrs]))
          rcases hdec : w.decode resp (w.get_secret rp) with ed | pk <;>
          · refine ⟨?_, ?_, ?_, ?_⟩ <;>
              simp [Client.send_packet, hb, hcs, henc, hrs, hdec,
                Event.isSendEv, Event.isRecvEv, Except.isOk, Except.toBool]
            all_goals exact hlen
        all_goals refine ⟨?_, ?_, ?_, ?_⟩ <;>
          simp [Client.send_packet, hb, hcs, henc, hrs, Event.isSendEv,
            Event.isRecvEv, Except.isOk, Except.toBool]

/-- Witness for C7's amended claim: in the all-success world the exchange
sends and receives exactly one datagram each. -/
theorem send_packet_datagram_counts_witness :
    ((Client.new none none).send_packet addr4 pkt0 baseWorld).2.countP
        (fun ev => ev.isSendEv) = 1 ∧
    ((Client.new none none).send_packet addr4 pkt0 baseWorld).2.countP
        (fun ev => ev.isRecvEv) = 1 :=
  (send_packet_datagram_counts (Client.new none none) addr4 pkt0
      baseWorld).2.2.2.1 rfl

/-- C8: the constructor stores both optional durations unchanged, with no
validation or clamping — the `Duration` type itself admits no negative
values — and a zero duration acts as an immediate timeout for its phase: it
times out any association, or any send-then-receive sequence, that takes
any positive time at all. -/
theorem client_new_no_validation_zero_timeout (ct st : Option Duration)
    (remote : SocketAddr) (rp : Packet) (w : World) (data : Bytes) :
    Client.new ct st = ⟨ct, st⟩ ∧
    ((Client.new ct st).connection_timeout = ct ∧
      (Client.new ct st).socket_timeout = st) ∧
    (w.bindResult = .ok () → 0 < w.connectElapsed →
      ((Client.new (some 0) st).send_packet remote rp w).1 =
        .error .ConnectionTimeoutError) ∧
    (w.bindResult = .ok () →
      connectStep (Client.new ct (some 0)) remote w = .ok () →
      w.encode rp = .ok data → 0 < requestElapsed w →
      ((Client.new ct (some 0)).send_packet remote rp w).1 =
        .error .SocketTimeoutError) := by
  refine ⟨rfl, ⟨rfl, rfl⟩, ?_, ?_⟩
  · intro hb hpos
    have hnle : ¬w.connectElapsed ≤ 0 := by omega
    simp [Client.send_packet, hb, connectStep, tokioTimeout, Client.new, hnle]
  · intro hb hcs henc hpos
    have hnle : ¬requestElapsed w ≤ 0 := by omega
    simp only [Client.new] at hcs
    simp [Client.send_packet, hb, hcs, henc, requestStep, tokioTimeout,
      Client.new, hnle]

/-- Witness for C8: zero timeouts fire against a 5-unit association and a
7-unit receive. -/
theorem client_new_no_validation_zero_timeout_witness :
    ((Client.new (some 0) none).send_packet addr4 pkt0 slowConnectWorld).1 =
      .error .ConnectionTimeoutError ∧
    ((Client.new none (some 0)).send_packet addr4 pkt0 slowRecvWorld).1 =
      .error .SocketTimeoutError :=
  ⟨(client_new_no_validation_zero_timeout (some 0) none addr4 pkt0
      slowConnectWorld []).2.2.1 rfl (by decide),
   (client_new_no_validation_zero_timeout none (some 0) addr4 pkt0
      slowRecvWorld [0, 0, 0, 20]).2.2.2 rfl rfl rfl (by decide)⟩

/-- C9: `Client::request` yields a send error exactly when the underlying
send fails; the byte count of a successful send is discarded — the result
is the same for every reported count, including a partial one — and any
successful send proceeds to the receive step, whose outcome alone decides
the result. -/
theorem request_send_error_iff_count_ignored (remote : SocketAddr)
    (data : Bytes) (w : World) :
    ((∃ s, Client.request remote data w =
        .error (.FailedSendingRadiusPacketError remote s)) ↔
      (∃ s, w.sendResult = .error s)) ∧
    (∀ n m, Client.request remote data { w with sendResult := .ok n } =
      Client.request remote data { w with sendResult := .ok m }) ∧
    (∀ n, w.sendResult = .ok n →
      Client.request remote data w =
        (match w.recvResult with
         | .ok datagram => .ok (datagram.take Client.MAX_DATAGRAM_SIZE)
         | .error e => .error (.FailedReceivingResponseError remote e))) := by
  refine ⟨⟨?_, ?_⟩, ?_, ?_⟩
  · rintro ⟨s, hres⟩
    rcases hs : w.sendResult with s' | n
    · exact ⟨s', rfl⟩
    · exfalso
      rcases hr : w.recvResult with s'' | datagram <;>
        simp [Client.request, hs, hr] at hres
  · rintro ⟨s, hs⟩
    exact ⟨s, by simp [Client.request, hs]⟩
  · intro n m
    simp [Client.request]
  · intro n hs
    simp [Client.request, hs]

/-- Witness for C9: a partial send (1 byte accepted of a 4-byte request) is
treated as success and the exchange proceeds to the receive, returning the
reply. -/
theorem request_send_error_iff_count_ignored_witness :
    Client.request addr4 [0, 0, 0, 20] partialSendWorld = .ok [1, 2, 3] :=
  ((request_send_error_iff_count_ignored addr4 [0, 0, 0, 20]
      partialSendWorld).2.2 1 rfl).trans rfl
